import Mathlib

/-!
Shallow embedding of `src/tools/language.py` (a localization loader):
class `Language` (per-locale data loading and key lookup with fallback,
caching and placeholder substitution) and class `LanguageHolder`
(process-wide registry keyed by locale code).

Python values parsed from JSON are modelled by `JValue`; Python dicts by
insertion-ordered association lists with unique keys; the filesystem by an
explicit `FS` record; Python exceptions by `Except PyError`; object
identity (`is`) by explicit heap addresses (`Nat` oids), since the
registry aliases `Language` objects and `Language.get` both reads the
registry and mutates `self.data` in place.
-/

namespace ChorusLang

/-- A parsed JSON value (the result of Python's `json.load`). Objects are
insertion-ordered association lists; Python's parser keeps keys unique
(a later duplicate overwrites), so object lists here have unique keys.
Numbers are modelled as integers (no claim involves JSON floats). -/
inductive JValue where
  | str (s : String)
  | num (n : Int)
  | bool (b : Bool)
  | null
  | arr (elems : List JValue)
  | obj (fields : List (String × JValue))

/-- Python exceptions that the modelled code can raise. Exception
messages are elided: only the exception class matters to the claims.
`fuelExhausted` is a model-only marker for running out of recursion fuel;
the termination theorem shows it never escapes from fuel 2 upward. -/
inductive PyError where
  | attributeError
  | typeError
  | jsonDecodeError
  | fileNotFoundError
  | assertionError
  | stopIteration
  | isADirectoryError
  | fuelExhausted
  deriving DecidableEq

/-- A Python dict with string keys, as an insertion-ordered association
list with unique keys. -/
abbrev Dict := List (String × JValue)

/-- Python `d[k] = v` on a dict: replace the binding in place if the key
is present, otherwise append it (insertion order preserved). -/
def alistSet {α β : Type} [BEq α] : List (α × β) → α → β → List (α × β)
  | [], k, v => [(k, v)]
  | (k', v') :: rest, k, v =>
    if k == k' then (k, v) :: rest else (k', v') :: alistSet rest k v

/-- Python `target.update(source)`: assign each binding of `source`, in
order, into `target`. -/
def dictUpdate (target source : Dict) : Dict :=
  source.foldl (fun acc kv => alistSet acc kv.1 kv.2) target

/-- Python `d.get(k, dflt)` on a dict. -/
def dictGetD (d : Dict) (k : String) (dflt : JValue) : JValue :=
  (d.lookup k).getD dflt

/-- Python truthiness of a `JValue` (falsy exactly on these values). -/
def jFalsy : JValue → Bool
  | JValue.str s => s == ""
  | JValue.num n => n == 0
  | JValue.bool b => !b
  | JValue.null => true
  | JValue.arr es => es.isEmpty
  | JValue.obj fs => fs.isEmpty

/-- Python `str(v)` for the value kinds a `replacements` dict can carry.
Strings, integers, booleans and None follow Python exactly; the rendering
of containers is not modelled precisely (no claim substitutes one). -/
def pyStr : JValue → String
  | JValue.str s => s
  | JValue.num n => toString n
  | JValue.bool true => "True"
  | JValue.bool false => "False"
  | JValue.null => "None"
  | JValue.arr _ => "<list>"
  | JValue.obj _ => "<dict>"

/-- Does the first char list start with the second? -/
def charsStartsWith : List Char → List Char → Bool
  | _, [] => true
  | [], _ :: _ => false
  | c :: cs, p :: ps => c == p && charsStartsWith cs ps

/-- Replace every non-overlapping occurrence of `pat` (non-empty) by
`rep`, scanning left to right; `fuel` bounds the scan (the string's
length suffices, as each step consumes at least one character). -/
def replaceChars (pat rep : List Char) : Nat → List Char → List Char
  | _, [] => []
  | 0, s => s
  | fuel + 1, c :: cs =>
    if charsStartsWith (c :: cs) pat then
      rep ++ replaceChars pat rep fuel (List.drop pat.length (c :: cs))
    else
      c :: replaceChars pat rep fuel cs

/-- Python `s.replace(pat, rep)`: all non-overlapping occurrences,
left to right. The empty-pattern case (Python interleaves `rep`) is not
modelled: every pattern built by `Language.get` contains two braces. -/
def pyReplace (s pat rep : String) : String :=
  if pat.data.isEmpty then s
  else ⟨replaceChars pat.data rep.data s.data.length s.data⟩

/-- Python `s.startswith(p)`. -/
def pyStartsWith (s p : String) : Bool := charsStartsWith s.data p.data

/-- Python `s.endswith(p)`. -/
def pyEndsWith (s p : String) : Bool :=
  charsStartsWith s.data.reverse p.data.reverse

/-- The `replacements` loop of `Language.get`: for each pair `(k, v)` in
iteration order, replace every occurrence of the text `\x7bk\x7d` by
`str(v)` (Python `str.replace` replaces all occurrences). -/
def applyRepl (s : String) (rs : List (String × JValue)) : String :=
  rs.foldl (fun acc kv =>
    pyReplace acc ("\x7b" ++ kv.1 ++ "\x7d") (pyStr kv.2)) s

/-- The trailing `if replacements:` block of `Language.get`: skipped when
`replacements` is `None` (an empty dict is also falsy in Python, but the
empty fold is the identity, so folding is equivalent). -/
def applyRepl0 (s : String) : Option (List (String × JValue)) → String
  | none => s
  | some rs => applyRepl s rs

/-- Lexicographic comparison of char lists, Python's string order
(by Unicode code point). -/
def charsLe : List Char → List Char → Bool
  | [], _ => true
  | _ :: _, [] => false
  | a :: as, b :: bs =>
    if a == b then charsLe as bs else decide (a.toNat < b.toNat)

/-- Python string `<=`, used by `sorted`. -/
def strLe (a b : String) : Bool := charsLe a.data b.data

/-- Insert into a sorted list (insertion step of `sorted`). -/
def insortStr (x : String) : List String → List String
  | [] => [x]
  | y :: ys => if strLe x y then x :: y :: ys else y :: insortStr x ys

/-- Python `sorted` on a list of strings (insertion sort; `sorted` is
stable, which only matters for duplicate names, impossible in a
directory listing). -/
def sortStr (l : List String) : List String := l.foldr insortStr []

/-- The filesystem visible to the code. `dirents` maps each directory
path to its entry names (unsorted: the code sorts them); `files` maps
each existing regular file path to `some v` when its contents parse as
JSON value `v` and to `none` when opening or parsing it fails
(malformed JSON). -/
structure FS where
  dirents : List (String × List String)
  files : List (String × Option JValue)

/-- Python `os.path.isdir`. -/
def FS.isDir (fs : FS) (p : String) : Bool := (fs.dirents.lookup p).isSome

/-- Python `os.listdir`. -/
def FS.listdir (fs : FS) (p : String) : List String :=
  (fs.dirents.lookup p).getD []

/-- Python `os.path.exists`. -/
def FS.pathExists (fs : FS) (p : String) : Bool :=
  fs.isDir p || (fs.files.lookup p).isSome

/-- Python `ld.get("data", \x7b\x7d)`: only dicts have `.get`, so any
non-object JSON document raises `AttributeError` here. -/
def pyJsonGetData : JValue → Except PyError JValue
  | JValue.obj fields => .ok ((fields.lookup "data").getD (JValue.obj []))
  | _ => .error PyError.attributeError

/-- One loaded locale (class `Language`). `data` is `none` when the
`data` attribute was never set by `__read_data` (missing source), and
otherwise holds whatever value was assigned — in single-file mode that
is `lang_data.get("data", \x7b\x7d)`, which need not be a dict. -/
structure Language where
  name : JValue
  author : JValue
  enabled : JValue
  notes : JValue
  location : JValue
  locale_code : String
  data : Option JValue

/-- The directory branch of `Language.__read_data`: iterate the sorted
entries, skip non-`.json` names, skip files whose open/parse fails
(the `try`/`except` covers exactly `json.load(open(fp))`), then run
`ld.get("data", \x7b\x7d)` (which can raise `AttributeError` on a
non-object document — this is outside the `try`), merge dict-shaped
pieces into the accumulator, and set `found_any` after the shape check. -/
def readDirLoop (fs : FS) (location : String) :
    List String → Dict → Bool → Except PyError (Dict × Bool)
  | [], agg, found => .ok (agg, found)
  | fname :: rest, agg, found =>
    if pyEndsWith fname ".json" then
      match fs.files.lookup (location ++ "/" ++ fname) with
      | none => readDirLoop fs location rest agg found
      | some none => readDirLoop fs location rest agg found
      | some (some ld) =>
        match pyJsonGetData ld with
        | .error e => .error e
        | .ok dataPiece =>
          match dataPiece with
          | JValue.obj o => readDirLoop fs location rest (dictUpdate agg o) true
          | _ => readDirLoop fs location rest agg true
    else
      readDirLoop fs location rest agg found

/-- `Language.__read_data`: returns the resulting `data` attribute
(`none` = never assigned), or the escaping exception. Directory case:
aggregate `.json` files, leaving `data` unset when no file was
processed. File case: `os.path.exists` then a bare `json.load`
(malformed JSON propagates `json.JSONDecodeError` — no `try` here),
then `lang_data.get("data", \x7b\x7d)`. `os.path.isdir` on a non-string
raises `TypeError`. An existing non-file, non-dir path passed to
`open` raises `IsADirectoryError`. -/
def readData (fs : FS) (location : JValue) : Except PyError (Option JValue) :=
  match location with
  | JValue.str loc =>
    if fs.isDir loc then
      match readDirLoop fs loc (sortStr (fs.listdir loc)) [] false with
      | .error e => .error e
      | .ok (agg, found) =>
        if found then .ok (some (JValue.obj agg)) else .ok none
    else
      match fs.files.lookup loc with
      | some (some ld) =>
        match pyJsonGetData ld with
        | .error e => .error e
        | .ok d => .ok (some d)
      | some none => .error PyError.jsonDecodeError
      | none => .ok none
  | _ => .error PyError.typeError

/-- `Language.__init__`: read the metadata fields with their defaults,
then run `__read_data(self.location)`. -/
def mkLanguage (fs : FS) (meta : Dict) (code : String) :
    Except PyError Language :=
  let loc := dictGetD meta "location" (JValue.str "")
  match readData fs loc with
  | .error e => .error e
  | .ok d =>
    .ok { name := dictGetD meta "name" (JValue.str "Unknown")
          author := dictGetD meta "author" (JValue.str "Unknown")
          enabled := dictGetD meta "enabled" (JValue.bool false)
          notes := dictGetD meta "notes" (JValue.str "")
          location := loc
          locale_code := code
          data := d }

/-- A heap of `Language` objects, keyed by object id; models Python
object identity and in-place mutation of `self.data`. -/
abbrev Heap := List (Nat × Language)

/-- The observable state of class `LanguageHolder` together with the
object heap: `languages` maps locale code to the oid of the stored
`Language`; `default_code` starts as `"en_us"`. -/
structure Holder where
  heap : Heap
  languages : List (String × Nat)
  default_code : String

/-- The `if not code` head of `get_language`: None and the empty string
are both falsy and substitute the default code. -/
def effCode (h : Holder) : Option String → String
  | none => h.default_code
  | some s => if s == "" then h.default_code else s

/-- `LanguageHolder.get_language(code)`, returning the oid of the chosen
registry entry. A present key is returned; otherwise
`languages.get(default_code, next(iter(languages.values())))` falls back
to the default entry, then to the first entry in insertion order,
raising `StopIteration` only when the registry is empty. -/
def getLanguageOid (h : Holder) (code : Option String) : Except PyError Nat :=
  match h.languages.lookup (effCode h code) with
  | some oid => .ok oid
  | none =>
    match h.languages.lookup h.default_code with
    | some oid => .ok oid
    | none =>
      match h.languages with
      | [] => .error PyError.stopIteration
      | (_, oid) :: _ => .ok oid

/-- The test `not got or not isinstance(got, str)` on the value of
`self.data.get(key, default)` (with Python `None` as `Option.none`):
false exactly for a non-empty string. -/
def pyFalsyOrNonStr : Option JValue → Bool
  | some (JValue.str s) => s == ""
  | _ => true

/-- Extract the string when `pyFalsyOrNonStr` is false. -/
def strOfGot : Option JValue → String
  | some (JValue.str s) => s
  | _ => ""

/-- The continuation of `Language.get` after the recursive
`default_lang.get(key, default=None, replacements=replacements)` call
returned `res`: exceptions propagate; `if not got: return None`;
otherwise write the cache `self.data[key] = got` (re-reading
`self.data`, which must still be a dict for item assignment) and let
the trailing `replacements` block run on the way out. Factored out of
the straight-line Python body so that the recursive call site is an
argument. -/
def langFallbackCore (selfOid : Nat) (key : String)
    (repl : Option (List (String × JValue)))
    (res : Except PyError (Option String × Holder)) :
    Except PyError (Option String × Holder) :=
  match res with
  | .error e => .error e
  | .ok (none, st') => .ok (none, st')
  | .ok (some g, st') =>
    if g == "" then .ok (none, st')
    else
      match st'.heap.lookup selfOid with
      | none => .error PyError.typeError
      | some self' =>
        match self'.data with
        | none => .error PyError.attributeError
        | some (JValue.obj d') =>
          let self2 : Language :=
            { self' with data :=
                (some (JValue.obj (alistSet d' key (JValue.str g)))) }
          .ok (some (applyRepl0 g repl),
            { st' with heap := alistSet st'.heap selfOid self2 })
        | some _ => .error PyError.typeError

/-- The `default is None` fallback branch of `Language.get`: resolve
`LanguageHolder.get_language(None)` (exceptions propagate), apply the
`default_lang is self` identity guard (identity = same heap address),
then recurse via `rec` and continue with `langFallbackCore`. -/
def langFallback
    (rec : Holder → Nat → String → Option String →
      Option (List (String × JValue)) → Except PyError (Option String × Holder))
    (st : Holder) (selfOid : Nat) (key : String)
    (repl : Option (List (String × JValue))) :
    Except PyError (Option String × Holder) :=
  match getLanguageOid st none with
  | .error e => .error e
  | .ok doid =>
    if doid == selfOid then .ok (none, st)
    else langFallbackCore selfOid key repl (rec st doid key none repl)

/-- The body of `Language.get`, parametrised by the function used for
the recursive fallback call. `self` is the object at `selfOid`;
`self.data.get` raises `AttributeError` when the `data` attribute was
never set (missing source) and when it is not a dict. A non-empty
string value is returned through the `replacements` block; anything
falsy or non-string triggers the supplied `default`, or, absent one,
the `langFallback` branch. -/
def langBody
    (rec : Holder → Nat → String → Option String →
      Option (List (String × JValue)) → Except PyError (Option String × Holder))
    (st : Holder) (selfOid : Nat) (key : String) (dflt : Option String)
    (repl : Option (List (String × JValue))) :
    Except PyError (Option String × Holder) :=
  match st.heap.lookup selfOid with
  | none => .error PyError.typeError
  | some self =>
    match self.data with
    | none => .error PyError.attributeError
    | some (JValue.obj d) =>
      let got : Option JValue :=
        match d.lookup key with
        | some v => some v
        | none => dflt.map JValue.str
      if pyFalsyOrNonStr got then
        match dflt with
        | some ds => .ok (some (applyRepl0 ds repl), st)
        | none => langFallback rec st selfOid key repl
      else
        .ok (some (applyRepl0 (strOfGot got) repl), st)
    | some _ => .error PyError.attributeError

/-- `Language.get` with explicit recursion fuel (the Python source has
syntactically unbounded recursion; the stability theorem below shows
depth 2 always suffices, because the recursive call passes the state
unchanged and the resolved default language then hits its own identity
guard). -/
def langGetF : Nat → Holder → Nat → String → Option String →
    Option (List (String × JValue)) → Except PyError (Option String × Holder)
  | 0, _, _, _, _, _ => .error PyError.fuelExhausted
  | n + 1, st, selfOid, key, dflt, repl =>
    langBody (langGetF n) st selfOid key dflt repl

/-- `Language.get` on the object at `selfOid`: fuel 2 is exact (see the
stability theorem). Returns the result (`none` = Python `None`) and the
state after any cache write. -/
def langGet (st : Holder) (selfOid : Nat) (key : String)
    (dflt : Option String) (repl : Option (List (String × JValue))) :
    Except PyError (Option String × Holder) :=
  langGetF 2 st selfOid key dflt repl

/-- Next unused heap address. -/
def freshOid (h : Heap) : Nat :=
  h.foldr (fun p acc => max (p.1 + 1) acc) 0

/-- The per-entry loop of `LanguageHolder.load_languages`: skip keys
starting with `"notes"`; `assert` that the entry is a dict containing
`location` and `name` (an `AssertionError` aborts the load, leaving the
state as mutated so far); honour a truthy `is_default` (before
construction, so a later construction failure can leave `default_code`
already changed); construct the `Language` (exceptions propagate) and
store it in the registry. -/
def loadEntries (fs : FS) :
    Holder → List (String × JValue) → Holder × Except PyError Unit
  | st, [] => (st, .ok ())
  | st, (code, entry) :: rest =>
    if pyStartsWith code "notes" then loadEntries fs st rest
    else
      match entry with
      | JValue.obj ed =>
        if (ed.lookup "location").isNone then (st, .error PyError.assertionError)
        else if (ed.lookup "name").isNone then (st, .error PyError.assertionError)
        else
          let st1 :=
            if jFalsy (dictGetD ed "is_default" (JValue.bool false)) then st
            else { st with default_code := code }
          match mkLanguage fs ed code with
          | .error e => (st1, .error e)
          | .ok lang =>
            let oid := freshOid st1.heap
            loadEntries fs
              { st1 with heap := (oid, lang) :: st1.heap,
                         languages := alistSet st1.languages code oid } rest
      | _ => (st, .error PyError.assertionError)

/-- `LanguageHolder.load_languages(json_path)`: `languages.clear()`
runs FIRST, then the existence check (`FileNotFoundError` on a missing
path leaves the registry empty), then `json.load` of the manifest
(`.items()` on a non-dict document raises `AttributeError`), then the
per-entry loop. Returns the state as observable afterwards together
with the outcome. -/
def loadLanguages (fs : FS) (st : Holder) (jsonPath : String) :
    Holder × Except PyError Unit :=
  let st1 := { st with languages := ([] : List (String × Nat)) }
  if fs.pathExists jsonPath then
    match fs.files.lookup jsonPath with
    | some (some (JValue.obj entries)) => loadEntries fs st1 entries
    | some (some _) => (st1, .error PyError.attributeError)
    | some none => (st1, .error PyError.jsonDecodeError)
    | none => (st1, .error PyError.isADirectoryError)
  else
    (st1, .error PyError.fileNotFoundError)

/-- The state produced by the cache write `self.data[key] = v` when
`self` (stored at `selfOid`) has data dict `d`: the heap entry is
replaced by a copy whose data binds `key` to `v`. -/
def cacheWrite (st : Holder) (selfOid : Nat) (self : Language) (d : Dict)
    (key v : String) : Holder :=
  let self2 : Language :=
    { self with data := (some (JValue.obj (alistSet d key (JValue.str v)))) }
  { st with heap := alistSet st.heap selfOid self2 }

/-! Concrete fixtures used by counterexamples and witnesses. -/

/-- An empty filesystem. -/
def fsEmpty : FS := { dirents := [], files := [] }

/-- The metadata of a language whose declared location does not exist. -/
def metaMissing : Dict := [("location", JValue.str "/nope"), ("name", JValue.str "X")]

/-- The `Language` built from `metaMissing` on `fsEmpty`: its `data`
attribute is never set. -/
def langMissing : Language :=
  { name := JValue.str "X", author := JValue.str "Unknown",
    enabled := JValue.bool false, notes := JValue.str "",
    location := JValue.str "/nope", locale_code := "xx", data := none }

/-- A registry holding only `langMissing`. -/
def stMissing : Holder :=
  { heap := [(1, langMissing)], languages := [("xx", 1)], default_code := "en_us" }

/-- A prior registry state with one (stale) entry, used by the
`load_languages` failure scenarios. -/
def stOld : Holder :=
  { heap := [], languages := [("old", 7)], default_code := "en_us" }

/-- A manifest whose first entry is valid and flagged `is_default` and
whose second entry is missing `name`. -/
def fsC1 : FS :=
  { dirents := [],
    files := [("m.json", some (JValue.obj
      [("aa", JValue.obj [("location", JValue.str ""), ("name", JValue.str "A"),
                          ("is_default", JValue.bool true)]),
       ("bb", JValue.obj [("location", JValue.str "")])]))] }

/-- The language built for manifest entry `aa` (its empty location does
not exist, so `data` stays unset). -/
def langAA : Language :=
  { name := JValue.str "A", author := JValue.str "Unknown",
    enabled := JValue.bool false, notes := JValue.str "",
    location := JValue.str "", locale_code := "aa", data := none }

/-- The state observable after `load_languages` aborts on `bb`: a
half-built registry holding only `aa`, with `default_code` already
switched to `aa`. -/
def stC1after : Holder :=
  { heap := [(0, langAA)], languages := [("aa", 0)], default_code := "aa" }

/-- A filesystem with a single existing but malformed JSON file. -/
def fsC3 : FS := { dirents := [], files := [("bad.json", none)] }

/-- Metadata pointing at the malformed single file. -/
def metaC3 : Dict := [("location", JValue.str "bad.json"), ("name", JValue.str "B")]

/-- A directory holding one malformed and one well-formed data file. -/
def fsC3dir : FS :=
  { dirents := [("M", ["bad.json", "ok.json"])],
    files :=
      [("M/bad.json", none),
       ("M/ok.json", some (JValue.obj [("data",
          JValue.obj [("a", JValue.str "1")])]))] }

/-- A non-default language whose `data` maps `"k"` to the empty string. -/
def langC4self : Language :=
  { name := JValue.str "Z", author := JValue.str "Unknown",
    enabled := JValue.bool false, notes := JValue.str "",
    location := JValue.str "", locale_code := "zz",
    data := some (JValue.obj [("k", JValue.str "")]) }

/-- The default language, mapping `"k"` to `"fb"`. -/
def langC4def : Language :=
  { name := JValue.str "D", author := JValue.str "Unknown",
    enabled := JValue.bool false, notes := JValue.str "",
    location := JValue.str "", locale_code := "dd",
    data := some (JValue.obj [("k", JValue.str "fb")]) }

/-- Registry with `zz` (non-default) and `dd` (default). -/
def stC4 : Holder :=
  { heap := [(1, langC4self), (2, langC4def)],
    languages := [("zz", 1), ("dd", 2)], default_code := "dd" }

/-- `stC4` after `zz`'s fallback lookup of `"k"` cached `"fb"`. -/
def stC4after : Holder :=
  { stC4 with heap :=
      [(1, { langC4self with data := some (JValue.obj [("k", JValue.str "fb")]) }),
       (2, langC4def)] }

/-- A non-default language with an empty (but present) data dict. -/
def langC5self : Language :=
  { name := JValue.str "Z", author := JValue.str "Unknown",
    enabled := JValue.bool false, notes := JValue.str "",
    location := JValue.str "", locale_code := "zz",
    data := some (JValue.obj []) }

/-- The default language mapping `"k"` to a placeholder template. -/
def langC5def : Language :=
  { name := JValue.str "D", author := JValue.str "Unknown",
    enabled := JValue.bool false, notes := JValue.str "",
    location := JValue.str "", locale_code := "dd",
    data := some (JValue.obj [("k", JValue.str "Hi \x7bn\x7d")]) }

/-- Registry for the fallback-and-cache scenarios. -/
def stC5 : Holder :=
  { heap := [(1, langC5self), (2, langC5def)],
    languages := [("zz", 1), ("dd", 2)], default_code := "dd" }

/-- The replacements dict used by the C9 witness. -/
def rC9 : List (String × JValue) := [("n", JValue.str "Bob")]

/-- A registry in which the resolved default language itself lacks the
looked-up key. -/
def stC6 : Holder :=
  { heap := [(1, { langC5def with data := some (JValue.obj []) })],
    languages := [("dd", 1)], default_code := "dd" }

/-- A directory with two data files whose names arrive unsorted from
`listdir`; `a.json` and `b.json` both define `"y"`. -/
def fsC8 : FS :=
  { dirents := [("L", ["b.json", "a.json"])],
    files :=
      [("L/a.json", some (JValue.obj [("data",
          JValue.obj [("x", JValue.str "1"), ("y", JValue.str "2")])])),
       ("L/b.json", some (JValue.obj [("data",
          JValue.obj [("y", JValue.str "3")])]))] }

/-- A directory containing a valid-JSON file whose top level is an
array, plus a manifest whose entry `cc` points at that directory. -/
def fsC10 : FS :=
  { dirents := [("D", ["arr.json"])],
    files :=
      [("D/arr.json", some (JValue.arr [])),
       ("m10.json", some (JValue.obj
         [("cc", JValue.obj [("location", JValue.str "D"),
                             ("name", JValue.str "C")])]))] }

/-! Helper lemmas. -/

/-- After `d[k] = v`, looking up `k` yields `v`. -/
theorem lookup_alistSet_self {α β : Type} [BEq α] [LawfulBEq α]
    (l : List (α × β)) (k : α) (v : β) :
    (alistSet l k v).lookup k = some v := by
  induction l with
  | nil => simp [alistSet, List.lookup]
  | cons p rest ih =>
    cases hk : k == p.1 with
    | true => simp [alistSet, hk, List.lookup]
    | false => simp [alistSet, hk, List.lookup, ih]

/-- A successful association-list lookup returns a stored value. -/
theorem lookup_mem_snd {α β : Type} [BEq α] [LawfulBEq α]
    (l : List (α × β)) (k : α) (v : β)
    (h : l.lookup k = some v) : v ∈ l.map Prod.snd := by
  induction l with
  | nil => simp [List.lookup] at h
  | cons p rest ih =>
    cases hk : k == p.1 with
    | true =>
      simp [List.lookup, hk] at h
      simp [h]
    | false =>
      simp only [List.lookup, hk] at h
      simp [ih h]

/-- The fallback branch depends on its recursive-call parameter only at
the resolved default language, with the state unchanged, the same key,
no default, and the same replacements. -/
theorem langFallback_congr
    (rec rec2 : Holder → Nat → String → Option String →
      Option (List (String × JValue)) → Except PyError (Option String × Holder))
    (st : Holder) (selfOid : Nat) (key : String)
    (repl : Option (List (String × JValue)))
    (h : ∀ doid, getLanguageOid st none = .ok doid → (doid == selfOid) = false →
      rec st doid key none repl = rec2 st doid key none repl) :
    langFallback rec st selfOid key repl =
      langFallback rec2 st selfOid key repl := by
  unfold langFallback
  cases hg : getLanguageOid st none with
  | error e => rfl
  | ok doid =>
    show (if doid == selfOid then Except.ok (none, st)
        else langFallbackCore selfOid key repl (rec st doid key none repl)) =
      (if doid == selfOid then Except.ok (none, st)
        else langFallbackCore selfOid key repl (rec2 st doid key none repl))
    cases hb : doid == selfOid with
    | true => simp [hb]
    | false =>
      simp only [hb, Bool.false_eq_true, if_false]
      rw [h doid hg hb]

/-- The body of `get` depends on its recursive-call parameter only
through `langFallback`. -/
theorem langBody_congr
    (rec rec2 : Holder → Nat → String → Option String →
      Option (List (String × JValue)) → Except PyError (Option String × Holder))
    (st : Holder) (selfOid : Nat) (key : String) (dflt : Option String)
    (repl : Option (List (String × JValue)))
    (h : ∀ doid, getLanguageOid st none = .ok doid → (doid == selfOid) = false →
      rec st doid key none repl = rec2 st doid key none repl) :
    langBody rec st selfOid key dflt repl =
      langBody rec2 st selfOid key dflt repl := by
  unfold langBody
  rw [langFallback_congr rec rec2 st selfOid key repl h]

/-- With positive fuel, `get` at the language that `get_language(None)`
resolves to never uses its recursive-call budget: the identity guard
fires first. Hence its result is fuel-independent from fuel 1 upward. -/
theorem langGetF_succ_one (n : Nat) (st : Holder) (doid : Nat) (key : String)
    (repl : Option (List (String × JValue)))
    (hdef : getLanguageOid st none = .ok doid) :
    langGetF (n + 1) st doid key none repl =
      langGetF 1 st doid key none repl := by
  show langBody (langGetF n) st doid key none repl =
    langBody (langGetF 0) st doid key none repl
  apply langBody_congr
  intro d2 h2 hne
  rw [hdef] at h2
  cases h2
  simp at hne

/-- Fuel-stability of `get`: fuel 2 computes the fixed point, for every
state and argument (the recursive call passes the state unchanged, so
the resolved default is the same at the next level and the identity
guard stops the recursion there). -/
theorem langGetF_stable (n : Nat) (st : Holder) (selfOid : Nat) (key : String)
    (dflt : Option String) (repl : Option (List (String × JValue))) :
    langGetF (n + 2) st selfOid key dflt repl =
      langGetF 2 st selfOid key dflt repl := by
  show langBody (langGetF (n + 1)) st selfOid key dflt repl =
    langBody (langGetF 1) st selfOid key dflt repl
  apply langBody_congr
  intro doid hdef _
  exact langGetF_succ_one n st doid key repl hdef

/-- `get` on a key stored as a non-empty string returns it (after the
`replacements` block) without touching any other state. -/
theorem langGetF_hit (n : Nat) (st : Holder) (selfOid : Nat) (key : String)
    (repl : Option (List (String × JValue))) (self : Language)
    (d : Dict) (s : String)
    (h1 : st.heap.lookup selfOid = some self)
    (h2 : self.data = some (JValue.obj d))
    (h3 : d.lookup key = some (JValue.str s))
    (h4 : (s == "") = false) :
    langGetF (n + 1) st selfOid key none repl =
      .ok (some (applyRepl0 s repl), st) := by
  show langBody (langGetF n) st selfOid key none repl = _
  unfold langBody
  simp [h1, h2, h3, pyFalsyOrNonStr, strOfGot, h4]

/-- The full fallback-and-cache path of `get`: the key is missing from
`self`, the registry resolves a distinct default language whose data
maps the key to a non-empty string `t`; then `get` returns `t` pushed
twice through the `replacements` block (the recursive call applies the
substitutions before the result is cached, and the outer call applies
them again on the way out) and the cache write stores the
once-substituted string in `self`'s data. -/
theorem langGetF_fb (st : Holder) (selfOid doid : Nat) (key : String)
    (repl : Option (List (String × JValue))) (self defL : Language)
    (d dd : Dict) (t : String)
    (h1 : st.heap.lookup selfOid = some self)
    (h2 : self.data = some (JValue.obj d))
    (h3 : d.lookup key = none)
    (h4 : getLanguageOid st none = .ok doid)
    (h5 : (doid == selfOid) = false)
    (h6 : st.heap.lookup doid = some defL)
    (h7 : defL.data = some (JValue.obj dd))
    (h8 : dd.lookup key = some (JValue.str t))
    (h9 : (t == "") = false)
    (h10 : (applyRepl0 t repl == "") = false) :
    langGet st selfOid key none repl =
      .ok (some (applyRepl0 (applyRepl0 t repl) repl),
        cacheWrite st selfOid self d key (applyRepl0 t repl)) := by
  have hrec : langGetF 1 st doid key none repl =
      .ok (some (applyRepl0 t repl), st) :=
    langGetF_hit 0 st doid key repl defL dd t h6 h7 h8 h9
  show langBody (langGetF 1) st selfOid key none repl = _
  unfold langBody
  simp only [h1, h2, h3, pyFalsyOrNonStr]
  unfold langFallback
  simp only [h4, h5, Bool.false_eq_true, if_false, hrec]
  unfold langFallbackCore
  simp [h10, h1, h2, cacheWrite]

/-! Claim theorems. -/

/-- C1: counterexample. `load_languages` clears the registry before the
manifest existence check, so a not-found failure leaves the registry
EMPTY even when the prior registry was non-empty — the observable state
is neither the old registry nor a complete new one. -/
theorem C1_counterexample :
    loadLanguages fsEmpty stOld "missing.json" =
      ({ stOld with languages := [] }, .error PyError.fileNotFoundError)
    ∧ stOld.languages ≠ [] :=
  ⟨rfl, by decide⟩

/-- C1 (amended): on a not-found failure the registry observable
afterwards is empty (cleared before the existence check) and
`default_code` is unchanged; on a validation failure the registry holds
exactly the entries processed before the failing one (a half-built new
registry), and `default_code` already reflects any `is_default` flags
among them. -/
theorem C1_load_failure_states :
    (∀ (fs : FS) (st : Holder) (p : String), fs.pathExists p = false →
      loadLanguages fs st p =
        ({ st with languages := [] }, .error PyError.fileNotFoundError))
    ∧ (loadLanguages fsC1 stOld "m.json" = (stC1after, .error PyError.assertionError)
       ∧ stC1after.languages = [("aa", 0)]
       ∧ stC1after.default_code = "aa"
       ∧ stOld.default_code = "en_us") := by
  constructor
  · intro fs st p hp
    unfold loadLanguages
    simp [hp]
  · exact ⟨rfl, rfl, rfl, rfl⟩

/-- C1: witness for the amended theorem's universally quantified part. -/
theorem C1_load_failure_states_witness :
    fsEmpty.pathExists "nope.json" = false
    ∧ loadLanguages fsEmpty stOld "nope.json" =
        ({ stOld with languages := [] }, .error PyError.fileNotFoundError) :=
  ⟨rfl, C1_load_failure_states.1 fsEmpty stOld "nope.json" rfl⟩

/-- C2: the code violates the claim. A `Language` whose declared
location does not exist never gets a `data` attribute, and `get` then
raises `AttributeError` at `self.data.get` instead of falling through
to the default-locale fallback or returning `None`. -/
theorem C2_unset_data_get_raises :
    mkLanguage fsEmpty metaMissing "xx" = .ok langMissing
    ∧ langMissing.data = none
    ∧ langGet stMissing 1 "some.key" none none = .error PyError.attributeError :=
  ⟨rfl, rfl, rfl⟩

/-- C3: counterexample. A single-file location that exists but holds
malformed JSON propagates the parse exception out of `Language`
construction (the file branch has no try/except), contradicting the
claim that a bad file never causes construction to raise. -/
theorem C3_counterexample :
    mkLanguage fsC3 metaC3 "yy" = .error PyError.jsonDecodeError := rfl

/-- C3 (amended): per-file fail-soft holds only in directory mode — a
directory entry that exists but fails to parse is skipped and the scan
continues — while in single-file mode an existing malformed file
propagates the JSON parse exception out of construction. -/
theorem C3_fail_soft_directory_only :
    (∀ (fs : FS) (loc f : String) (rest : List String) (agg : Dict) (found : Bool),
      pyEndsWith f ".json" = true →
      fs.files.lookup (loc ++ "/" ++ f) = some none →
      readDirLoop fs loc (f :: rest) agg found = readDirLoop fs loc rest agg found)
    ∧ (∀ (fs : FS) (loc : String), fs.isDir loc = false →
      fs.files.lookup loc = some none →
      readData fs (JValue.str loc) = .error PyError.jsonDecodeError) := by
  constructor
  · intro fs loc f rest agg found hend hfile
    simp only [readDirLoop, hend, hfile, if_true]
  · intro fs loc hdir hfile
    unfold readData
    simp [hdir, hfile]

/-- C3: witness — the malformed `M/bad.json` directory entry is skipped
(the merge then continues with `M/ok.json`), and the malformed
single-file location raises. -/
theorem C3_fail_soft_directory_only_witness :
    pyEndsWith "bad.json" ".json" = true
    ∧ fsC3dir.files.lookup ("M" ++ "/" ++ "bad.json") = some none
    ∧ readDirLoop fsC3dir "M" ["bad.json", "ok.json"] [] false =
        readDirLoop fsC3dir "M" ["ok.json"] [] false
    ∧ fsC3.isDir "bad.json" = false
    ∧ readData fsC3 (JValue.str "bad.json") = .error PyError.jsonDecodeError :=
  ⟨rfl, rfl,
    C3_fail_soft_directory_only.1 fsC3dir "M" "bad.json" ["ok.json"] [] false rfl rfl,
    rfl,
    C3_fail_soft_directory_only.2 fsC3 "bad.json" rfl rfl⟩

/-- C4: counterexample. A key stored as the EMPTY string is treated as
missing: `get` consults the default-language fallback and returns its
value `"fb"` (caching it), not the stored value `""` verbatim. -/
theorem C4_counterexample :
    langC4self.data = some (JValue.obj [("k", JValue.str "")])
    ∧ langGet stC4 1 "k" none none = .ok (some "fb", stC4after)
    ∧ ("fb" : String) ≠ "" :=
  ⟨rfl, rfl, by decide⟩

/-- C4 (amended): for every key mapped in the language's own data to a
NON-EMPTY STRING, `get(key)` with no default returns that value
verbatim and leaves the whole state unchanged (so the fallback is never
consulted and nothing is cached), for every registry configuration;
keys mapped to the empty string or to non-string values instead
trigger the fallback path. -/
theorem C4_get_hit_verbatim (st : Holder) (selfOid : Nat) (self : Language)
    (d : Dict) (key s : String)
    (h1 : st.heap.lookup selfOid = some self)
    (h2 : self.data = some (JValue.obj d))
    (h3 : d.lookup key = some (JValue.str s))
    (h4 : (s == "") = false) :
    langGet st selfOid key none none = .ok (some s, st) :=
  langGetF_hit 1 st selfOid key none self d s h1 h2 h3 h4

/-- C4: witness — the default language of `stC4` returns `"fb"` for
`"k"` with no state change. -/
theorem C4_get_hit_verbatim_witness :
    stC4.heap.lookup 2 = some langC4def
    ∧ langGet stC4 2 "k" none none = .ok (some "fb", stC4) :=
  ⟨rfl, C4_get_hit_verbatim stC4 2 langC4def [("k", JValue.str "fb")] "k" "fb"
    rfl rfl rfl rfl⟩

/-- C5: for a key absent from a non-default language but mapped to a
non-empty string `v` in the resolved default language, `get(key)` (no
default) returns `v` and caches it into the calling instance's data;
afterwards, on ANY state in which the instance's data binds the key to
`v` — in particular the post-call state, and even if the key is removed
from the default language — a second `get(key)` returns the identical
value with no state change, so the default language is not consulted
again. -/
theorem C5_fallback_then_cache (st : Holder) (selfOid doid : Nat)
    (key : String) (self defL : Language) (d dd : Dict) (v : String)
    (h1 : st.heap.lookup selfOid = some self)
    (h2 : self.data = some (JValue.obj d))
    (h3 : d.lookup key = none)
    (h4 : getLanguageOid st none = .ok doid)
    (h5 : (doid == selfOid) = false)
    (h6 : st.heap.lookup doid = some defL)
    (h7 : defL.data = some (JValue.obj dd))
    (h8 : dd.lookup key = some (JValue.str v))
    (h9 : (v == "") = false) :
    langGet st selfOid key none none =
      .ok (some v, cacheWrite st selfOid self d key v)
    ∧ (∀ (st2 : Holder) (self2 : Language) (d2 : Dict),
        st2.heap.lookup selfOid = some self2 →
        self2.data = some (JValue.obj d2) →
        d2.lookup key = some (JValue.str v) →
        langGet st2 selfOid key none none = .ok (some v, st2))
    ∧ langGet (cacheWrite st selfOid self d key v) selfOid key none none =
        .ok (some v, cacheWrite st selfOid self d key v) := by
  have hhit : ∀ (st2 : Holder) (self2 : Language) (d2 : Dict),
      st2.heap.lookup selfOid = some self2 →
      self2.data = some (JValue.obj d2) →
      d2.lookup key = some (JValue.str v) →
      langGet st2 selfOid key none none = .ok (some v, st2) := by
    intro st2 self2 d2 g1 g2 g3
    exact langGetF_hit 1 st2 selfOid key none self2 d2 v g1 g2 g3 h9
  refine ⟨?_, hhit, ?_⟩
  · exact langGetF_fb st selfOid doid key none self defL d dd v
      h1 h2 h3 h4 h5 h6 h7 h8 h9 h9
  · refine hhit (cacheWrite st selfOid self d key v)
      ({ self with data := (some (JValue.obj (alistSet d key (JValue.str v)))) })
      (alistSet d key (JValue.str v))
      ?_ rfl (lookup_alistSet_self d key (JValue.str v))
    exact lookup_alistSet_self st.heap selfOid _

/-- C5: witness — in `stC5`, `zz` lacks `"k"`, the default `dd` maps it
to a non-empty string, and both calls behave as stated. -/
theorem C5_fallback_then_cache_witness :
    stC5.heap.lookup 1 = some langC5self
    ∧ (langGet stC5 1 "k" none none =
        .ok (some "Hi \x7bn\x7d", cacheWrite stC5 1 langC5self [] "k" "Hi \x7bn\x7d")
      ∧ (∀ (st2 : Holder) (self2 : Language) (d2 : Dict),
          st2.heap.lookup 1 = some self2 →
          self2.data = some (JValue.obj d2) →
          d2.lookup "k" = some (JValue.str "Hi \x7bn\x7d") →
          langGet st2 1 "k" none none = .ok (some "Hi \x7bn\x7d", st2))
      ∧ langGet (cacheWrite stC5 1 langC5self [] "k" "Hi \x7bn\x7d") 1 "k" none none =
          .ok (some "Hi \x7bn\x7d", cacheWrite stC5 1 langC5self [] "k" "Hi \x7bn\x7d")) :=
  ⟨rfl, C5_fallback_then_cache stC5 1 2 "k" langC5self langC5def []
    [("k", JValue.str "Hi \x7bn\x7d")] "Hi \x7bn\x7d" rfl rfl rfl rfl rfl rfl rfl rfl rfl⟩

/-- C6: `get` terminates on every input — from fuel 2 upward the result
is fuel-independent for EVERY state and argument (the fallback
recursion depth is bounded by 2) — and, on the instance that the
registry resolves as the default language, a missing key with no
default returns `None` via the self-identity guard. -/
theorem C6_get_terminates :
    (∀ (n : Nat) (st : Holder) (selfOid : Nat) (key : String)
      (dflt : Option String) (repl : Option (List (String × JValue))),
      langGetF (n + 2) st selfOid key dflt repl =
        langGetF 2 st selfOid key dflt repl)
    ∧ (∀ (st : Holder) (selfOid : Nat) (self : Language) (d : Dict)
        (key : String) (repl : Option (List (String × JValue))),
        st.heap.lookup selfOid = some self →
        self.data = some (JValue.obj d) →
        d.lookup key = none →
        getLanguageOid st none = .ok selfOid →
        langGet st selfOid key none repl = .ok (none, st)) := by
  refine ⟨langGetF_stable, ?_⟩
  intro st selfOid self d key repl h1 h2 h3 h4
  show langBody (langGetF 1) st selfOid key none repl = _
  unfold langBody
  simp only [h1, h2, h3, pyFalsyOrNonStr]
  unfold langFallback
  simp [h4]

/-- C6: witness — fuel-independence at fuel 7 on `stC6`, and `get` on
the default instance itself for a missing key returns `None`. -/
theorem C6_get_terminates_witness :
    langGetF (5 + 2) stC6 1 "k" none none = langGetF 2 stC6 1 "k" none none
    ∧ langGet stC6 1 "k" none none = .ok (none, stC6) :=
  ⟨C6_get_terminates.1 5 stC6 1 "k" none none,
   C6_get_terminates.2 stC6 1 { langC5def with data := some (JValue.obj []) } []
     "k" none rfl rfl rfl rfl⟩

/-- C7: whenever the registry is non-empty, `get_language` returns a
registry entry and never raises, for every requested code (including
`None`); it returns the entry stored under the effective code whenever
that key is present; and the raising branch is reachable only when the
registry is completely empty. -/
theorem C7_get_language_total (hh : Holder) (code : Option String) :
    (hh.languages ≠ [] →
      ∃ oid, getLanguageOid hh code = .ok oid ∧ oid ∈ hh.languages.map Prod.snd)
    ∧ (∀ e, getLanguageOid hh code = .error e → hh.languages = [])
    ∧ (∀ oid, hh.languages.lookup (effCode hh code) = some oid →
        getLanguageOid hh code = .ok oid) := by
  refine ⟨?_, ?_, ?_⟩
  · intro hne
    unfold getLanguageOid
    cases hc1 : hh.languages.lookup (effCode hh code) with
    | some oid => exact ⟨oid, rfl, lookup_mem_snd _ _ _ hc1⟩
    | none =>
      cases hc2 : hh.languages.lookup hh.default_code with
      | some oid => exact ⟨oid, rfl, lookup_mem_snd _ _ _ hc2⟩
      | none =>
        cases hl : hh.languages with
        | nil => exact absurd hl hne
        | cons p rest => exact ⟨p.2, rfl, by simp⟩
  · intro e he
    unfold getLanguageOid at he
    cases hc1 : hh.languages.lookup (effCode hh code) with
    | some oid => rw [hc1] at he; simp at he
    | none =>
      rw [hc1] at he
      cases hc2 : hh.languages.lookup hh.default_code with
      | some oid => rw [hc2] at he; simp at he
      | none =>
        rw [hc2] at he
        cases hl : hh.languages with
        | nil => rfl
        | cons p rest => rw [hl] at he; simp at he
  · intro oid hc
    unfold getLanguageOid
    rw [hc]

/-- C7: witness — an unknown code on the non-empty registry `stC4`
resolves without raising, to a stored entry. -/
theorem C7_get_language_total_witness :
    stC4.languages ≠ []
    ∧ ∃ oid, getLanguageOid stC4 (some "nope") = .ok oid
        ∧ oid ∈ stC4.languages.map Prod.snd :=
  ⟨by decide, (C7_get_language_total stC4 (some "nope")).1 (by decide)⟩

/-- C8: directory-mode loading merges the `"data"` objects of the
`.json` files in lexicographic filename order (the fixture's `listdir`
returns them unsorted), with the later file winning on the collision:
`a.json` gives x=1, y=2 and `b.json` gives y=3, yielding exactly
x=1, y=3. -/
theorem C8_directory_merge :
    readData fsC8 (JValue.str "L") =
      .ok (some (JValue.obj [("x", JValue.str "1"), ("y", JValue.str "3")])) := rfl

/-- C9: when `get(key, replacements=r)` resolves via the default-
language fallback from template `t`, the value cached into the calling
instance's data is `t` with `r`'s substitutions already applied (the
call even returns the substitutions applied twice, since the outer
replacements block runs again on the fallback result), and every later
`get(key, replacements=r2)` on that instance operates on the cached,
already-substituted string. -/
theorem C9_fallback_cache_substituted (st : Holder) (selfOid doid : Nat)
    (key : String) (r : List (String × JValue)) (self defL : Language)
    (d dd : Dict) (t : String)
    (h1 : st.heap.lookup selfOid = some self)
    (h2 : self.data = some (JValue.obj d))
    (h3 : d.lookup key = none)
    (h4 : getLanguageOid st none = .ok doid)
    (h5 : (doid == selfOid) = false)
    (h6 : st.heap.lookup doid = some defL)
    (h7 : defL.data = some (JValue.obj dd))
    (h8 : dd.lookup key = some (JValue.str t))
    (h9 : (t == "") = false)
    (h10 : (applyRepl t r == "") = false) :
    langGet st selfOid key none (some r) =
      .ok (some (applyRepl (applyRepl t r) r),
        cacheWrite st selfOid self d key (applyRepl t r))
    ∧ (∀ r2, langGet (cacheWrite st selfOid self d key (applyRepl t r))
        selfOid key none (some r2) =
        .ok (some (applyRepl (applyRepl t r) r2),
          cacheWrite st selfOid self d key (applyRepl t r))) := by
  constructor
  · exact langGetF_fb st selfOid doid key (some r) self defL d dd t
      h1 h2 h3 h4 h5 h6 h7 h8 h9 h10
  · intro r2
    refine langGetF_hit 1 (cacheWrite st selfOid self d key (applyRepl t r))
      selfOid key (some r2)
      ({ self with data :=
        (some (JValue.obj (alistSet d key (JValue.str (applyRepl t r))))) })
      (alistSet d key (JValue.str (applyRepl t r)))
      (applyRepl t r) ?_ rfl
      (lookup_alistSet_self d key (JValue.str (applyRepl t r))) h10
    exact lookup_alistSet_self st.heap selfOid _

/-- C9: witness — the template `Hi \x7bn\x7d` is fetched through the
fallback with replacements, cached as `Hi Bob`, and a later lookup with
other replacements works on the cached string. -/
theorem C9_fallback_cache_substituted_witness :
    (applyRepl "Hi \x7bn\x7d" rC9 == "") = false
    ∧ (langGet stC5 1 "k" none (some rC9) =
        .ok (some (applyRepl (applyRepl "Hi \x7bn\x7d" rC9) rC9),
          cacheWrite stC5 1 langC5self [] "k" (applyRepl "Hi \x7bn\x7d" rC9))
      ∧ (∀ r2, langGet (cacheWrite stC5 1 langC5self [] "k"
            (applyRepl "Hi \x7bn\x7d" rC9)) 1 "k" none (some r2) =
          .ok (some (applyRepl (applyRepl "Hi \x7bn\x7d" rC9) r2),
            cacheWrite stC5 1 langC5self [] "k" (applyRepl "Hi \x7bn\x7d" rC9)))) :=
  ⟨rfl, C9_fallback_cache_substituted stC5 1 2 "k" rC9 langC5self langC5def []
    [("k", JValue.str "Hi \x7bn\x7d")] "Hi \x7bn\x7d" rfl rfl rfl rfl rfl rfl rfl rfl
    rfl rfl⟩

/-- C10: a directory file whose contents parse as valid JSON with a
non-object top level (here an array) is NOT skipped: the `"data"`
extraction raises `AttributeError` outside the per-file try/except,
aborting `Language` construction and the enclosing `load_languages`
call. -/
theorem C10_non_object_json_aborts :
    readData fsC10 (JValue.str "D") = .error PyError.attributeError
    ∧ loadLanguages fsC10 stOld "m10.json" =
        ({ stOld with languages := [] }, .error PyError.attributeError) :=
  ⟨rfl, rfl⟩

end ChorusLang
